import Mathlib

/-!
# A verification model of the `jocker` container engine

Shallow embedding of the core of the `jocker` repository (a minimal Linux
container engine written in Rust) and proofs about it.  Rust strings are
modelled as lists of characters (`Rstr`); the filesystem and the kernel are
modelled as explicit state; fallible Rust functions returning `Result` become
Lean functions into `Except`.
-/

/-- Rust strings, modelled as lists of characters. -/
abbrev Rstr := List Char

/-! ## Error types (src/jocker/image.rs, src/jocker/container.rs) -/

/-- `ImageError` from src/jocker/image.rs.  The `std::io::Error` payloads
carried by some variants are irrelevant to the properties proved here and are
dropped. -/
inductive ImageError
  | InvalidImage
  | UnpackError
  | CannotCreateDirectory
  | CannotImportTarball
  | CannotRemoveImage
deriving DecidableEq

/-- `ContainerError` from src/jocker/container.rs.  `std::io::Error` and
`nix::Error` payloads are dropped; the `i32` exit code of
`CommandExitedWithError` is modelled as `Int`. -/
inductive ContainerError
  | InvalidConfigurationFile
  | InvalidCommand
  | InvalidContainerDirectory
  | CannotOpenConfigurationFile
  | CannotSaveConfigurationFile
  | CreationError
  | InitializationError (e : ImageError)
  | ExportError (e : ImageError)
  | ArchiveError
  | ContainerExecutionError
  | ContainerSetupError
  | CommandExitedWithError (code : Int)
  | ContainerExitedAbnormally
deriving DecidableEq

/-! ## Child status translation (`Container::run_command`, parent side) -/

/-- `nix::sys::wait::WaitStatus`: the statuses `waitpid` can report.  Only
`Exited` is a normal exit; every other constructor is an abnormal end as far
as the match in `run_command` is concerned. -/
inductive WaitStatus
  | Exited (pid : Nat) (code : Int)
  | Signaled (pid : Nat) (signal : Nat) (coreDumped : Bool)
  | Stopped (pid : Nat) (signal : Nat)
  | Continued (pid : Nat)
  | StillAlive
deriving DecidableEq

/-- Whether a `WaitStatus` is a normal exit (`WaitStatus::Exited`). -/
def WaitStatus.isNormalExit : WaitStatus → Bool
  | .Exited _ _ => true
  | _ => false

/-- The translation of the awaited child status performed at the end of
`Container::run_command` (src/jocker/container.rs lines 399-404):
`Exited(_, 0) => Ok(())`, `Exited(_, 242) => Err(ContainerSetupError)`,
`Exited(_, result) => Err(CommandExitedWithError(result))`,
`_ => Err(ContainerExitedAbnormally)`. -/
def translateWaitStatus : WaitStatus → Except ContainerError Unit
  | .Exited _ code =>
      if code = 0 then .ok ()
      else if code = 242 then .error .ContainerSetupError
      else .error (.CommandExitedWithError code)
  | _ => .error .ContainerExitedAbnormally

/-- C1: run_command translates the awaited child status: normal exit 0 is
success; normal exit 242 is `ContainerSetupError` (even for a user command
that itself exits 242); any other normal exit code `n` is
`CommandExitedWithError n`; any abnormal end is `ContainerExitedAbnormally`. -/
theorem C1_run_command_status_translation :
    (∀ p : Nat, translateWaitStatus (.Exited p 0) = .ok ())
    ∧ (∀ p : Nat, translateWaitStatus (.Exited p 242) =
        .error .ContainerSetupError)
    ∧ (∀ (p : Nat) (n : Int), n ≠ 0 → n ≠ 242 →
        translateWaitStatus (.Exited p n) =
          .error (.CommandExitedWithError n))
    ∧ (∀ s : WaitStatus, s.isNormalExit = false →
        translateWaitStatus s = .error .ContainerExitedAbnormally) := by
  refine ⟨fun p => rfl, fun p => rfl, fun p n h0 h242 => ?_, fun s hs => ?_⟩
  · simp [translateWaitStatus, h0, h242]
  · cases s <;> simp_all [WaitStatus.isNormalExit, translateWaitStatus]

/-- Witness for C1 at concrete inputs: exit code 5 is neither 0 nor 242 and
maps to `CommandExitedWithError 5`; a signaled status is abnormal. -/
theorem C1_witness :
    translateWaitStatus (.Exited 7 5) =
      .error (.CommandExitedWithError 5)
    ∧ translateWaitStatus (.Signaled 7 9 false) =
      .error .ContainerExitedAbnormally := by
  exact ⟨C1_run_command_status_translation.2.2.1 7 5 (by decide) (by decide),
    C1_run_command_status_translation.2.2.2 (.Signaled 7 9 false) rfl⟩

/-! ## Child-side setup sequence (`Container::run_command`, child body)

The closure `run_container` (src/jocker/container.rs lines 328-386) performs
a fixed sequence of fallible effects inside a `try` block: every `?` aborts
the block, the error is printed and the child exits with the sentinel 242, so
a step runs only when every earlier step succeeded.
`mount_kernel_filesystems` is itself a loop over the four pseudo-filesystem
mounts in order proc, sys, tmp, dev/pts, aborting at the first failure, so
those four mounts are modelled as individual steps.  `create_devices` (a loop
over the four device nodes) and `move_to_new_root` (mkdir old_root +
pivot_root + chdir) are modelled as single steps, matching the granularity of
the claim. -/

/-- The effects performed by the child body of `run_command`, in source
order. -/
inductive SetupStep
  | setupCpuCgroup
  | setupMemoryCgroup
  | setHostname
  | remountRootPrivate
  | mountOverlay
  | mountProc
  | mountSys
  | mountTmp
  | mountDevPts
  | createDevices
  | pivotRoot
  | detachOldRoot
  | removeOldRoot
  | execCommand
deriving DecidableEq

/-- The order in which the child body attempts its effects, read off the
source of `run_container`. -/
def childSetupOrder : List SetupStep :=
  [ .setupCpuCgroup, .setupMemoryCgroup, .setHostname, .remountRootPrivate,
    .mountOverlay, .mountProc, .mountSys, .mountTmp, .mountDevPts,
    .createDevices, .pivotRoot, .detachOldRoot, .removeOldRoot,
    .execCommand ]

/-- How the child ends: either `execv` replaced the process image, or some
step failed and the child exited with the sentinel status 242. -/
inductive ChildOutcome
  | execed
  | exitedWithSentinel
deriving DecidableEq

/-- Run a list of fallible steps the way the child's `try` block does: each
step is attempted only after all earlier ones succeeded (`ok` says whether a
step succeeds); the first failing step is the last one attempted and the
child exits with the sentinel.  Returns the attempted steps and the
outcome. -/
def runChildSteps (ok : SetupStep → Bool) : List SetupStep →
    List SetupStep × ChildOutcome
  | [] => ([], .execed)
  | s :: rest =>
    if ok s then
      let r := runChildSteps ok rest
      (s :: r.1, r.2)
    else ([s], .exitedWithSentinel)

/-- The child body of `run_command`: attempt the steps of `childSetupOrder`
in order. -/
def childRun (ok : SetupStep → Bool) : List SetupStep × ChildOutcome :=
  runChildSteps ok childSetupOrder

/-- The steps the source attempts strictly before step `s`. -/
def stepsBefore (s : SetupStep) : List SetupStep :=
  childSetupOrder.takeWhile (fun a => a != s)

theorem runChildSteps_take (ok : SetupStep → Bool) :
    ∀ l : List SetupStep, ∃ k, (runChildSteps ok l).1 = l.take k := by
  intro l
  induction l with
  | nil => exact ⟨0, rfl⟩
  | cons s rest ih =>
    by_cases h : ok s = true
    · obtain ⟨k, hk⟩ := ih
      exact ⟨k + 1, by simp [runChildSteps, h, hk]⟩
    · exact ⟨1, by simp [runChildSteps, h]⟩

theorem runChildSteps_earlier_ok (ok : SetupStep → Bool) :
    ∀ (l : List SetupStep) (s : SetupStep), s ∈ (runChildSteps ok l).1 →
      ∀ s' ∈ l.takeWhile (fun a => a != s),
        ok s' = true ∧ s' ∈ (runChildSteps ok l).1 := by
  intro l
  induction l with
  | nil => intro s hs; simp [runChildSteps] at hs
  | cons a rest ih =>
    intro s hs s' hs'
    by_cases ha : ok a = true
    · simp only [runChildSteps, ha, if_true, List.mem_cons] at hs
      by_cases has : a = s
      · subst has
        simp [List.takeWhile] at hs'
      · rcases hs with hs | hs
        · exact absurd hs.symm has
        · have hne : (a != s) = true := by simp [has]
          simp only [List.takeWhile, hne, List.mem_cons] at hs'
          rcases hs' with hs' | hs'
          · subst hs'
            exact ⟨ha, by simp [runChildSteps, ha]⟩
          · obtain ⟨h1, h2⟩ := ih s hs s' hs'
            exact ⟨h1, by simp [runChildSteps, ha, h2]⟩
    · simp only [runChildSteps, ha, if_neg, List.mem_singleton,
        Bool.false_eq_true, if_false] at hs
      subst hs
      simp [List.takeWhile] at hs'

theorem runChildSteps_all_ok (ok : SetupStep → Bool) :
    ∀ l : List SetupStep, (∀ s ∈ l, ok s = true) →
      runChildSteps ok l = (l, .execed) := by
  intro l
  induction l with
  | nil => intro _; rfl
  | cons a rest ih =>
    intro h
    have ha := h a (by simp)
    have hr := ih (fun s hs => h s (by simp [hs]))
    simp [runChildSteps, ha, hr]

/-- C2: in the child body of run_command, the attempted setup effects form a
prefix of the source order; every attempted step was preceded by the success
(and occurrence) of all steps before it, so a failure prevents every later
step; and the source order places cgroup setup first, then hostname, the
private recursive remount of `/` before every other mount, the overlay mount
before the four pseudo-filesystem mounts, device creation before pivot_root,
pivot_root before detaching `/old_root`, and detachment and removal of
`/old_root` before `execv`.  When every step succeeds the child attempts all
of them, ending in exec. -/
theorem C2_child_setup_order :
    (∀ ok : SetupStep → Bool, ∃ k, (childRun ok).1 = childSetupOrder.take k)
    ∧ (∀ (ok : SetupStep → Bool) (s : SetupStep), s ∈ (childRun ok).1 →
        ∀ s' ∈ stepsBefore s, ok s' = true ∧ s' ∈ (childRun ok).1)
    ∧ (∀ ok : SetupStep → Bool, (∀ s, ok s = true) →
        childRun ok = (childSetupOrder, .execed))
    ∧ (SetupStep.setupCpuCgroup ∈ stepsBefore .setupMemoryCgroup
      ∧ SetupStep.setupMemoryCgroup ∈ stepsBefore .setHostname
      ∧ SetupStep.setHostname ∈ stepsBefore .remountRootPrivate
      ∧ SetupStep.remountRootPrivate ∈ stepsBefore .mountOverlay
      ∧ SetupStep.remountRootPrivate ∈ stepsBefore .mountProc
      ∧ SetupStep.remountRootPrivate ∈ stepsBefore .mountSys
      ∧ SetupStep.remountRootPrivate ∈ stepsBefore .mountTmp
      ∧ SetupStep.remountRootPrivate ∈ stepsBefore .mountDevPts
      ∧ SetupStep.mountOverlay ∈ stepsBefore .mountProc
      ∧ SetupStep.mountOverlay ∈ stepsBefore .mountSys
      ∧ SetupStep.mountOverlay ∈ stepsBefore .mountTmp
      ∧ SetupStep.mountOverlay ∈ stepsBefore .mountDevPts
      ∧ SetupStep.createDevices ∈ stepsBefore .pivotRoot
      ∧ SetupStep.pivotRoot ∈ stepsBefore .detachOldRoot
      ∧ SetupStep.detachOldRoot ∈ stepsBefore .execCommand
      ∧ SetupStep.removeOldRoot ∈ stepsBefore .execCommand) := by
  refine ⟨fun ok => runChildSteps_take ok childSetupOrder,
    fun ok s hs s' hs' => runChildSteps_earlier_ok ok childSetupOrder s hs s' hs',
    fun ok h => runChildSteps_all_ok ok childSetupOrder (fun s _ => h s),
    by decide⟩

/-- Witness for C2 at a concrete input: with every step succeeding, the exec
step is attempted and the overlay mount, which the source places before it,
succeeded and was attempted. -/
theorem C2_witness :
    (fun (_ : SetupStep) => true) SetupStep.mountOverlay = true
    ∧ SetupStep.mountOverlay ∈ (childRun (fun _ => true)).1 := by
  exact C2_child_setup_order.2.1 (fun _ => true) .execCommand (by decide)
    .mountOverlay (by decide)

/-! ## Build-script parsing (src/commands/images.rs) -/

/-- `JockerfileCommand` from src/commands/images.rs: the commands allowed in
a Jockerfile. -/
inductive JockerfileCommand
  | Run (args : Rstr)
deriving DecidableEq

/-- `ImageBuildError` from src/commands/images.rs.  The argument counts of
`InvalidArguments` are `u32` in the source, modelled as `Nat`. -/
inductive ImageBuildError
  | EmptyBuildScript
  | MissingFromDirective
  | InvalidFromDirective
  | InvalidCommand (cmd : Rstr)
  | InvalidArguments (expected got : Nat)
  | IntermediateContainerError (e : ContainerError)
  | CannotCreateResultingImage (e : ImageError)
deriving DecidableEq

/-- `char::is_ascii_whitespace` from Rust: space, tab, newline, form feed,
carriage return. -/
def isAsciiWhitespace (c : Char) : Bool :=
  c = ' ' || c = '\t' || c = '\n' || c = '\x0c' || c = '\r'

/-- Accumulator-style splitter behind `split_ascii_whitespace`: `cur` holds
the (reversed) characters of the token being read. -/
def splitAsciiWhitespaceAux : List Char → Rstr → List Rstr
  | [], cur => if cur = [] then [] else [cur.reverse]
  | c :: rest, cur =>
    if isAsciiWhitespace c then
      if cur = [] then splitAsciiWhitespaceAux rest []
      else cur.reverse :: splitAsciiWhitespaceAux rest []
    else splitAsciiWhitespaceAux rest (c :: cur)

/-- `str::split_ascii_whitespace`: the non-empty maximal runs of
non-whitespace characters, in order. -/
def split_ascii_whitespace (s : Rstr) : List Rstr :=
  splitAsciiWhitespaceAux s []

/-- `ImageBuilder::parse_from_directive` (src/commands/images.rs lines
68-83), taking the surviving (non-empty) lines of the script: with no line
left the script is empty; otherwise the first line is split on ASCII
whitespace, the first token must be `FROM` (otherwise, or with no token at
all, `MissingFromDirective`), a second token is the base image name, and a
missing second token is `InvalidFromDirective`.  The iterator is never
advanced past the second token, so further tokens are not examined. -/
def parse_from_directive : List Rstr → Except ImageBuildError Rstr
  | [] => .error .EmptyBuildScript
  | line :: _ =>
    match split_ascii_whitespace line with
    | tok :: rest =>
      if tok = "FROM".data then
        match rest with
        | s :: _ => .ok s
        | [] => .error .InvalidFromDirective
      else .error .MissingFromDirective
    | [] => .error .MissingFromDirective

/-- `str::splitn(2, ' ')`: the characters before the first space, and, when a
space occurs, the remainder after it (possibly empty). -/
def splitn2Space : Rstr → Rstr × Option Rstr
  | [] => ([], none)
  | c :: rest =>
    if c = ' ' then ([], some rest)
    else
      let r := splitn2Space rest
      (c :: r.1, r.2)

/-- `ImageBuilder::parse_command` (src/commands/images.rs lines 85-96): the
line is split into at most two pieces at the first space; a first piece `RUN`
with a non-empty second piece yields `Run args`; `RUN` with a missing or
empty second piece yields `InvalidArguments 1 0`; any other first piece `cmd`
yields `InvalidCommand cmd` (the source's final `unreachable!` arm cannot
fire because `splitn` always yields a first piece). -/
def parse_command (line : Rstr) : Except ImageBuildError JockerfileCommand :=
  let r := splitn2Space line
  if r.1 = "RUN".data then
    match r.2 with
    | some args =>
      if args ≠ [] then .ok (.Run args)
      else .error (.InvalidArguments 1 0)
    | none => .error (.InvalidArguments 1 0)
  else .error (.InvalidCommand r.1)

/-- The line filter applied in `ImageBuilder::build` (src/commands/images.rs
line 117): `lines.iter().filter(|s| !s.is_empty())`. -/
def surviving (lines : List Rstr) : List Rstr :=
  lines.filter (fun s => !s.isEmpty)

/-- `parse_commands`: parse each remaining line with `parse_command`,
stopping at the first error, as the loop in `build` does. -/
def parse_commands : List Rstr → Except ImageBuildError (List JockerfileCommand)
  | [] => .ok []
  | l :: rest => do
    let c ← parse_command l
    let cs ← parse_commands rest
    return c :: cs

/-- The parsing pipeline of `ImageBuilder::build`: filter out the empty
lines, parse the FROM directive from the first surviving line, and parse
every later surviving line as a command. -/
def parse_script (lines : List Rstr) :
    Except ImageBuildError (Rstr × List JockerfileCommand) := do
  let surv := surviving lines
  let base ← parse_from_directive surv
  let cmds ← parse_commands surv.tail
  return (base, cmds)

/-- C3 counterexample: on the script line `FROM base extra`, the additional
token `extra` does not cause the line to be rejected; `parse_from_directive`
accepts the line and returns `base`. -/
theorem C3_counterexample :
    parse_from_directive ["FROM base extra".data] = .ok "base".data := rfl

/-- C3 (amended): with no surviving line the builder returns
`EmptyBuildScript`; a first token other than exactly `FROM` (or a line with
no token) returns `MissingFromDirective`; `FROM` with no further token
returns `InvalidFromDirective`; with a second token present, that token is
the base image name and any additional tokens on the line are ignored. -/
theorem C3_parse_from_directive :
    parse_from_directive [] = .error .EmptyBuildScript
    ∧ (∀ (line : Rstr) (others : List Rstr),
        split_ascii_whitespace line = [] →
        parse_from_directive (line :: others) = .error .MissingFromDirective)
    ∧ (∀ (line : Rstr) (others : List Rstr) (tok : Rstr) (toks : List Rstr),
        split_ascii_whitespace line = tok :: toks → tok ≠ "FROM".data →
        parse_from_directive (line :: others) = .error .MissingFromDirective)
    ∧ (∀ (line : Rstr) (others : List Rstr),
        split_ascii_whitespace line = ["FROM".data] →
        parse_from_directive (line :: others) = .error .InvalidFromDirective)
    ∧ (∀ (line : Rstr) (others : List Rstr) (s : Rstr) (more : List Rstr),
        split_ascii_whitespace line = "FROM".data :: s :: more →
        parse_from_directive (line :: others) = .ok s) := by
  refine ⟨rfl, fun line others h => ?_, fun line others tok toks h hne => ?_,
    fun line others h => ?_, fun line others s more h => ?_⟩
  · simp [parse_from_directive, h]
  · simp [parse_from_directive, h, hne]
  · simp [parse_from_directive, h]
  · simp [parse_from_directive, h]

/-- Witness for C3 at a concrete input: `FROM a b` tokenizes to
`[FROM, a, b]` and parses to base image `a`, the token `b` being ignored. -/
theorem C3_witness :
    parse_from_directive ["FROM a b".data] = .ok "a".data := by
  exact C3_parse_from_directive.2.2.2.2 "FROM a b".data [] "a".data ["b".data]
    rfl

/-- C4: filtering out the blank (empty) lines is the first thing the build
parser does, so a script parses identically to the same script with its
blank lines removed; `RUN <args>` with non-empty `<args>` parses to
`Run args`; a bare `RUN` (missing arguments) and `RUN ` (empty arguments)
parse to `InvalidArguments 1 0`; and any other leading token `t` parses to
`InvalidCommand t`. -/
theorem C4_parse_command_and_blank_lines :
    (∀ lines : List Rstr, parse_script lines = parse_script (surviving lines))
    ∧ (∀ args : Rstr, args ≠ [] →
        parse_command ("RUN ".data ++ args) = .ok (.Run args))
    ∧ parse_command "RUN".data = .error (.InvalidArguments 1 0)
    ∧ parse_command "RUN ".data = .error (.InvalidArguments 1 0)
    ∧ (∀ line : Rstr, (splitn2Space line).1 ≠ "RUN".data →
        parse_command line = .error (.InvalidCommand (splitn2Space line).1)) := by
  refine ⟨fun lines => ?_, fun args h => ?_, rfl, rfl, fun line h => ?_⟩
  · simp [parse_script, surviving, List.filter_filter]
  · simp [parse_command, splitn2Space, h]
  · simp [parse_command, h]

/-- Witness for C4 at concrete inputs: `RUN true` parses to `Run true`, and
`COPY x y` parses to `InvalidCommand COPY`. -/
theorem C4_witness :
    parse_command ("RUN ".data ++ "true".data) = .ok (.Run "true".data)
    ∧ parse_command "COPY x y".data =
        .error (.InvalidCommand (splitn2Space "COPY x y".data).1) := by
  exact ⟨C4_parse_command_and_blank_lines.2.1 "true".data (by decide),
    C4_parse_command_and_blank_lines.2.2.2.2 "COPY x y".data (by decide)⟩

/-! ## The build loop (`ImageBuilder::build`, src/commands/images.rs 113-148)

The environment abstracts the fallible collaborator calls of one build: the
creation of the intermediate container at step `k`, the `run_command` of its
RUN line, its `export_as_image`, the final `get_image` lookup and the final
`copy_image`.  The intermediate names are fresh UUIDs and do not influence
control flow, so they are not tracked.  Rust panics (`expect`) are modelled
as a distinct `panicked` outcome carrying the `expect` message, since a panic
terminates the process instead of returning an error value. -/

/-- The results of the fallible collaborator calls made by one run of
`ImageBuilder::build`, indexed by step number where the call is per-step. -/
structure BuildEnv where
  createResult : Nat → Except ContainerError Unit
  runResult : Nat → Except ContainerError Unit
  exportResult : Nat → Except ContainerError Unit
  getFinalImage : Bool
  copyResult : Except ImageError Unit

/-- How a build ends: normal return `Ok(())`, an error value returned to the
caller, or a process-terminating panic with the `expect` message. -/
inductive BuildOutcome
  | ok
  | err (e : ImageBuildError)
  | panicked (msg : String)
deriving DecidableEq

/-- The per-line loop and final-image publication of `ImageBuilder::build`:
for each remaining line, create the intermediate container (failure wraps as
`IntermediateContainerError`), parse the line (failure propagates directly),
run the command (failure wraps as `IntermediateContainerError`), and export
the container — where the source calls `.expect("cannot export")`, a panic.
After the loop, with a final name supplied, the built image is looked up with
`.expect("cannot find the built image")` (a panic when absent) and copied
(failure wraps as `CannotCreateResultingImage`). -/
def build_loop (env : BuildEnv) (finalName : Option Rstr) :
    Nat → List Rstr → BuildOutcome
  | _, [] =>
    match finalName with
    | none => .ok
    | some _ =>
      if env.getFinalImage then
        match env.copyResult with
        | .ok _ => .ok
        | .error e => .err (.CannotCreateResultingImage e)
      else .panicked "cannot find the built image"
  | k, line :: rest =>
    match env.createResult k with
    | .error e => .err (.IntermediateContainerError e)
    | .ok _ =>
      match parse_command line with
      | .error e => .err e
      | .ok _cmd =>
        match env.runResult k with
        | .error e => .err (.IntermediateContainerError e)
        | .ok _ =>
          match env.exportResult k with
          | .error _ => .panicked "cannot export"
          | .ok _ => build_loop env finalName (k + 1) rest

/-- `ImageBuilder::build`: filter blank lines, parse the FROM directive, then
run the per-line loop. -/
def build (env : BuildEnv) (lines : List Rstr) (finalName : Option Rstr) :
    BuildOutcome :=
  match parse_from_directive (surviving lines) with
  | .error e => .err e
  | .ok _base => build_loop env finalName 0 (surviving lines).tail

/-- An environment in which every collaborator call succeeds except the
export of the first intermediate container. -/
def exportFailEnv : BuildEnv where
  createResult := fun _ => .ok ()
  runResult := fun _ => .ok ()
  exportResult := fun _ => .error .ArchiveError
  getFinalImage := true
  copyResult := .ok ()

/-- C5 counterexample: when exporting the first intermediate container fails,
`build` does not return `IntermediateContainerError` (or any error value); it
panics with the source's `expect` message `cannot export`, terminating the
process. -/
theorem C5_counterexample :
    build exportFailEnv ["FROM base".data, "RUN true".data] none =
      .panicked "cannot export" := rfl

/-- C5 (amended): an error creating an intermediate container or running its
RUN command propagates to build's caller as `IntermediateContainerError`
wrapping the cause, and a failure to copy the final named image propagates as
`CannotCreateResultingImage` wrapping the cause; but a failure to export an
intermediate container terminates the process with the panic message `cannot
export`, and a missing final image terminates it with the panic message
`cannot find the built image`, neither being returned as an error value. -/
theorem C5_build_error_propagation :
    (∀ (env : BuildEnv) (fN : Option Rstr) (k : Nat) (line : Rstr)
        (rest : List Rstr) (e : ContainerError),
      env.createResult k = .error e →
      build_loop env fN k (line :: rest) = .err (.IntermediateContainerError e))
    ∧ (∀ (env : BuildEnv) (fN : Option Rstr) (k : Nat) (line : Rstr)
        (rest : List Rstr) (cmd : JockerfileCommand) (e : ContainerError),
      env.createResult k = .ok () → parse_command line = .ok cmd →
      env.runResult k = .error e →
      build_loop env fN k (line :: rest) = .err (.IntermediateContainerError e))
    ∧ (∀ (env : BuildEnv) (fN : Option Rstr) (k : Nat) (line : Rstr)
        (rest : List Rstr) (cmd : JockerfileCommand) (e : ContainerError),
      env.createResult k = .ok () → parse_command line = .ok cmd →
      env.runResult k = .ok () → env.exportResult k = .error e →
      build_loop env fN k (line :: rest) = .panicked "cannot export")
    ∧ (∀ (env : BuildEnv) (k : Nat) (n : Rstr) (e : ImageError),
      env.getFinalImage = true → env.copyResult = .error e →
      build_loop env (some n) k [] = .err (.CannotCreateResultingImage e))
    ∧ (∀ (env : BuildEnv) (k : Nat) (n : Rstr),
      env.getFinalImage = false →
      build_loop env (some n) k [] = .panicked "cannot find the built image") := by
  refine ⟨fun env fN k line rest e hc => ?_,
    fun env fN k line rest cmd e hc hp hr => ?_,
    fun env fN k line rest cmd e hc hp hr hx => ?_,
    fun env k n e hg hcp => ?_, fun env k n hg => ?_⟩
  · simp [build_loop, hc]
  · simp [build_loop, hc, hp, hr]
  · simp [build_loop, hc, hp, hr, hx]
  · simp [build_loop, hg, hcp]
  · simp [build_loop, hg]

/-- Witness for C5 at concrete inputs: in an environment whose first
container creation fails with `CreationError`, the loop returns
`IntermediateContainerError CreationError`. -/
theorem C5_witness :
    build_loop
      { createResult := fun _ => .error .CreationError
        runResult := fun _ => .ok ()
        exportResult := fun _ => .ok ()
        getFinalImage := true
        copyResult := .ok () }
      none 0 ["RUN true".data] =
      .err (.IntermediateContainerError .CreationError) := by
  exact C5_build_error_propagation.1
    { createResult := fun _ => .error .CreationError
      runResult := fun _ => .ok ()
      exportResult := fun _ => .ok ()
      getFinalImage := true
      copyResult := .ok () }
    none 0 "RUN true".data [] .CreationError rfl

/-! ## Container configuration (src/jocker/container.rs 77-114, 508-520)

`ContainerConfig` derives serde's `Serialize` and `Deserialize` without
`deny_unknown_fields`.  JSON documents are modelled as trees; a file's bytes
are modelled by their parse result: either a JSON document or `invalid`
(bytes that are not valid JSON).  The filesystem is a list of directories and
a list of files with contents. -/

/-- A JSON value. -/
inductive JsonVal
  | JStr (s : String)
  | JNum (n : Int)
  | JBool (b : Bool)
  | JNull
  | JObj (fields : List (String × JsonVal))
  | JArr (elems : List JsonVal)

/-- `ContainerConfig`: the two-field configuration of a container. -/
structure ContainerConfig where
  name : String
  image_name : String
deriving DecidableEq

/-- Fill a string-field slot: fails on a duplicate (slot already filled) and
on a non-string value, as serde's derived visitor does. -/
def readStringField : Option String → JsonVal → Option String
  | none, .JStr s => some s
  | none, .JNum _ => none
  | none, .JBool _ => none
  | none, .JNull => none
  | none, .JObj _ => none
  | none, .JArr _ => none
  | some _, _ => none

/-- Finish deserialization: both required fields must have been seen. -/
def finishConfig : Option String → Option String → Option ContainerConfig
  | some n, some i => some ⟨n, i⟩
  | some _, none => none
  | none, some _ => none
  | none, none => none

/-- The field visitor of serde's derived `Deserialize` for `ContainerConfig`:
walk the object's fields in order, filling the `name` and `image_name` slots,
failing on a duplicate known field or on a known field whose value is not a
string, ignoring unknown fields (serde's default in the absence of
`deny_unknown_fields`), and requiring both fields to be present at the
end. -/
def containerConfigFields :
    List (String × JsonVal) → Option String → Option String →
    Option ContainerConfig
  | [], n, i => finishConfig n i
  | (k, v) :: rest, n, i =>
    if k = "name" then
      match readStringField n v with
      | some s => containerConfigFields rest (some s) i
      | none => none
    else if k = "image_name" then
      match readStringField i v with
      | some s => containerConfigFields rest n (some s)
      | none => none
    else containerConfigFields rest n i

/-- serde's derived `Deserialize` for `ContainerConfig` applied to a parsed
JSON document: only an object can deserialize. -/
def container_config_from_json : JsonVal → Option ContainerConfig
  | .JObj fields => containerConfigFields fields none none
  | _ => none

/-- serde's derived `Serialize` for `ContainerConfig`: the two-field JSON
object, fields in declaration order. -/
def container_config_to_json (c : ContainerConfig) : JsonVal :=
  .JObj [("name", .JStr c.name), ("image_name", .JStr c.image_name)]

/-- The content of a file, as seen by a JSON reader: either bytes parsing to
a JSON document, or bytes that are not valid JSON. -/
inductive FileContent
  | json (v : JsonVal)
  | invalid

/-- Paths are lists of components. -/
abbrev FsPath := List String

/-- A filesystem: the directories that exist and the files with their
contents. -/
structure Fsys where
  dirs : List FsPath
  files : List (FsPath × FileContent)

/-- Look a file up by path (first match wins, new files are prepended). -/
def lookupFile : List (FsPath × FileContent) → FsPath → Option FileContent
  | [], _ => none
  | (q, c) :: rest, p => if q = p then some c else lookupFile rest p

/-- Read a file's content. -/
def Fsys.readFile (fs : Fsys) (p : FsPath) : Option FileContent :=
  lookupFile fs.files p

/-- `ContainerConfig::load_from_file` (src/jocker/container.rs 90-94): open
the file (`CannotOpenConfigurationFile` when absent), then
`serde_json::from_reader`, every parse or shape error collapsed to
`InvalidConfigurationFile` by the source's `map_err`. -/
def load_from_file (fs : Fsys) (path : FsPath) :
    Except ContainerError ContainerConfig :=
  match fs.readFile path with
  | none => .error .CannotOpenConfigurationFile
  | some .invalid => .error .InvalidConfigurationFile
  | some (.json v) =>
    match container_config_from_json v with
    | some c => .ok c
    | none => .error .InvalidConfigurationFile

/-- `ContainerConfig::save` (src/jocker/container.rs 97-103):
`fs::File::create` then `serde_json::to_writer`; the io failures which the
source maps to `CannotSaveConfigurationFile` are not modelled, so save always
succeeds and replaces the file's content. -/
def ContainerConfig.save (c : ContainerConfig) (fs : Fsys) (path : FsPath) :
    Fsys :=
  { fs with files := (path, .json (container_config_to_json c)) :: fs.files }

/-- A container value: its configuration and directory, as in
`Container { config, path }`. -/
structure RContainer where
  config : ContainerConfig
  path : FsPath
deriving DecidableEq

/-- `Container::from_directory`: load `config.json` from the directory. -/
def container_from_directory (fs : Fsys) (path : FsPath) :
    Except ContainerError RContainer :=
  match load_from_file fs (path ++ ["config.json"]) with
  | .ok c => .ok ⟨c, path⟩
  | .error e => .error e

/-- `ContainerStore::get_container` (src/jocker/container.rs 508-520): when
`<root>/<name>` exists, `Container::from_directory` is attempted and only an
`Ok` is surfaced — `if let Ok(container) = ... { Some } else { None }` — so a
load error is discarded; when the directory is missing the result is
`None`. -/
def get_container (fs : Fsys) (root : FsPath) (name : String) :
    Option RContainer :=
  let path := root ++ [name]
  if path ∈ fs.dirs then
    match container_from_directory fs path with
    | .ok c => some c
    | .error _ => none
  else none

/-- A store whose container directory `containers/c1` exists but whose
`config.json` does not parse as JSON. -/
def malformedFs : Fsys where
  dirs := [["containers", "c1"]]
  files := [(["containers", "c1", "config.json"], .invalid)]

/-- C6 counterexample: with the directory present and `config.json`
malformed, `get_container` does not return the error
`InvalidConfigurationFile`; the load error is discarded and `get_container`
returns nothing, exactly as for a missing directory. -/
theorem C6_counterexample :
    (["containers", "c1"] : FsPath) ∈ malformedFs.dirs
    ∧ load_from_file malformedFs ["containers", "c1", "config.json"] =
        .error .InvalidConfigurationFile
    ∧ get_container malformedFs ["containers"] "c1" = none := by
  refine ⟨by simp [malformedFs], rfl, rfl⟩

/-- C6 (amended): `get_container` returns nothing when `<root>/<name>` does
not exist; when the directory exists but loading `config.json` fails,
`load_from_file` does produce `InvalidConfigurationFile` (for unparsable
bytes as well as for a JSON document missing a required field), but
`get_container` discards that error and again returns nothing; a successful
load is returned as the container. -/
theorem C6_get_container :
    ∀ (fs : Fsys) (root : FsPath) (name : String),
    (root ++ [name] ∉ fs.dirs → get_container fs root name = none)
    ∧ (∀ e : ContainerError,
        container_from_directory fs (root ++ [name]) = .error e →
        get_container fs root name = none)
    ∧ (∀ path : FsPath, fs.readFile path = some .invalid →
        load_from_file fs path = .error .InvalidConfigurationFile)
    ∧ (∀ (path : FsPath) (v : JsonVal),
        fs.readFile path = some (.json v) →
        container_config_from_json v = none →
        load_from_file fs path = .error .InvalidConfigurationFile)
    ∧ (∀ c : RContainer, root ++ [name] ∈ fs.dirs →
        container_from_directory fs (root ++ [name]) = .ok c →
        get_container fs root name = some c) := by
  intro fs root name
  refine ⟨fun h => ?_, fun e he => ?_, fun path h => ?_,
    fun path v hv hc => ?_, fun c hd hc => ?_⟩
  · simp [get_container, h]
  · simp [get_container, he]
  · simp [load_from_file, h]
  · simp [load_from_file, hv, hc]
  · simp [get_container, hd, hc]

/-- Witness for C6 at a concrete input: on the malformed store the
from-directory load fails, and `get_container` returns nothing. -/
theorem C6_witness :
    get_container malformedFs ["containers"] "c1" = none := by
  exact (C6_get_container malformedFs ["containers"] "c1").2.1
    .InvalidConfigurationFile rfl

/-- A configuration document carrying both required fields plus an unknown
field `extra`. -/
def extraFieldJson : JsonVal :=
  .JObj [("name", .JStr "a"), ("image_name", .JStr "b"),
    ("extra", .JStr "c")]

/-- A store whose `config.json` contains the extra-field document. -/
def extraFieldFs : Fsys where
  dirs := [["containers", "c2"]]
  files := [(["containers", "c2", "config.json"], .json extraFieldJson)]

/-- C7 counterexample: a configuration file with both required fields plus an
unknown field is not rejected: deserialization succeeds and
`load_from_file` returns the configuration, the extra field being ignored
(the derive has no `deny_unknown_fields`). -/
theorem C7_counterexample :
    container_config_from_json extraFieldJson = some ⟨"a", "b"⟩
    ∧ load_from_file extraFieldFs ["containers", "c2", "config.json"] =
        .ok ⟨"a", "b"⟩ :=
  ⟨rfl, rfl⟩

theorem containerConfigFields_ignores_unknown (n i : String) :
    ∀ extra : List (String × JsonVal),
    (∀ kv ∈ extra, kv.1 ≠ "name" ∧ kv.1 ≠ "image_name") →
    containerConfigFields extra (some n) (some i) = some ⟨n, i⟩ := by
  intro extra
  induction extra with
  | nil => intro _; rfl
  | cons kv rest ih =>
    intro h
    obtain ⟨h1, h2⟩ := h kv (by simp)
    obtain ⟨k, v⟩ := kv
    simp only [containerConfigFields, if_neg h1, if_neg h2]
    exact ih (fun kv hkv => h kv (by simp [hkv]))

/-- C7 (amended): loading a configuration whose JSON object contains the two
required fields followed by any unknown fields succeeds and returns those
two fields: the unknown fields are ignored, not rejected (serde's default
without `deny_unknown_fields`). -/
theorem C7_unknown_fields_ignored :
    ∀ (n i : String) (extra : List (String × JsonVal)),
    (∀ kv ∈ extra, kv.1 ≠ "name" ∧ kv.1 ≠ "image_name") →
    container_config_from_json
      (.JObj ([("name", .JStr n), ("image_name", .JStr i)] ++ extra)) =
      some ⟨n, i⟩ := by
  intro n i extra h
  simp only [container_config_from_json, List.cons_append, List.nil_append,
    containerConfigFields, if_pos rfl, if_neg (by decide : ¬("image_name" : String) = "name")]
  exact containerConfigFields_ignores_unknown n i extra h

/-- Witness for C7 at a concrete input: the object with fields `name`,
`image_name` and `extra` deserializes to the two-field configuration. -/
theorem C7_witness :
    container_config_from_json
      (.JObj ([("name", .JStr "a"), ("image_name", .JStr "b")] ++
        [("extra", .JStr "c")])) = some ⟨"a", "b"⟩ := by
  exact C7_unknown_fields_ignored "a" "b" [("extra", .JStr "c")]
    (by intro kv hkv; simp at hkv; subst hkv; exact ⟨by decide, by decide⟩)

/-- C9: for every pair of strings, saving the configuration built from them
and loading the saved file returns a configuration with equal fields. -/
theorem C9_config_round_trip :
    ∀ (n i : String) (fs : Fsys) (path : FsPath),
    load_from_file ((ContainerConfig.mk n i).save fs path) path =
      .ok ⟨n, i⟩ := by
  intro n i fs path
  simp [load_from_file, Fsys.readFile, ContainerConfig.save, lookupFile,
    container_config_to_json, container_config_from_json,
    containerConfigFields, readStringField, finishConfig]

/-! ## The image store (src/jocker/image.rs)

The store's observable state is the set of image directories under its root:
`import_image` creates `<root>/<name>/` (idempotently, `create_dir_all`) and
copies the tarball into it; `images` iterates the direct entries of the root,
wrapping each entry's path in an `Image`; `Image::name` is the `file_stem` of
the path's last component.  Tarball contents never influence these
operations, so they are not tracked. -/

/-- The index of the last `.` in a file name, if any. -/
def lastIndexOfDot : List Char → Option Nat
  | [] => none
  | c :: rest =>
    match lastIndexOfDot rest with
    | some i => some (i + 1)
    | none => if c = '.' then some 0 else none

/-- Rust's `Path::file_stem` applied to a single path component: the portion
before the last `.`; a name whose only `.` is its first character (a hidden
file) is its own stem. -/
def file_stem (s : Rstr) : Rstr :=
  match lastIndexOfDot s with
  | some i => if i = 0 then s else s.take i
  | none => s

/-- An `Image` handle: just a path, as in the source. -/
structure ImageHandle where
  path : List Rstr
deriving DecidableEq

/-- `Image::name` (src/jocker/image.rs 43-45): the `file_stem` of the image
directory's name (its path's last component). -/
def ImageHandle.name (img : ImageHandle) : Rstr :=
  file_stem (img.path.getLast?.getD [])

/-- The observable state of an `ImageStore`: the names of the direct
subdirectories of its root. -/
structure ImageStoreState where
  names : List Rstr
deriving DecidableEq

/-- `ImageStore::import_image` (src/jocker/image.rs 102-108) restricted to
its effect on the store: `create_dir_all(<root>/<name>)` (idempotent) and the
copy of the tarball into it; a directory entry for `name` exists
afterwards. -/
def import_image (st : ImageStoreState) (name : Rstr) : ImageStoreState :=
  { names := if name ∈ st.names then st.names else st.names ++ [name] }

/-- `ImageStore::images` (src/jocker/image.rs 82-88): one handle per direct
entry of the root, each with path `<root>/<entry>`. -/
def images (root : List Rstr) (st : ImageStoreState) : List ImageHandle :=
  st.names.map (fun n => ⟨root ++ [n]⟩)

/-- C8 counterexample: the image name `a.b` is a valid simple path component,
yet importing it into an empty store and listing yields one entry whose
`name()` is `a`, not `a.b` — `Image::name` takes the `file_stem` of the
directory name. -/
theorem C8_counterexample :
    (images ["images".data] (import_image ⟨[]⟩ "a.b".data)).map
        ImageHandle.name = ["a".data]
    ∧ "a".data ≠ "a.b".data := by
  exact ⟨rfl, by decide⟩

theorem file_stem_of_no_dot :
    ∀ s : Rstr, '.' ∉ s → file_stem s = s := by
  have hnone : ∀ s : Rstr, '.' ∉ s → lastIndexOfDot s = none := by
    intro s
    induction s with
    | nil => intro _; rfl
    | cons c rest ih =>
      intro h
      have hc : ¬c = '.' := fun hc => h (by simp [hc])
      have hr := ih (fun hr => h (by simp [hr]))
      simp [lastIndexOfDot, hr, hc]
  intro s h
  simp [file_stem, hnone s h]

/-- C8 (amended): for every valid image name `N` (a non-empty simple path
component) imported into a store containing no other images, listing yields
exactly one entry, and that entry's `name()` is `file_stem N` — the part of
`N` before its last dot — which equals `N` exactly when `N` has no extension;
in particular it equals `N` whenever `N` contains no dot. -/
theorem C8_import_then_list :
    ∀ (root : List Rstr) (N : Rstr), N ≠ [] → '/' ∉ N →
    images root (import_image ⟨[]⟩ N) = [⟨root ++ [N]⟩]
    ∧ (images root (import_image ⟨[]⟩ N)).map ImageHandle.name =
        [file_stem N]
    ∧ ('.' ∉ N →
        (images root (import_image ⟨[]⟩ N)).map ImageHandle.name = [N]) := by
  intro root N _ _
  have h1 : images root (import_image ⟨[]⟩ N) = [⟨root ++ [N]⟩] := by
    simp [images, import_image]
  have h2 : (images root (import_image ⟨[]⟩ N)).map ImageHandle.name =
      [file_stem N] := by
    simp [h1, ImageHandle.name]
  exact ⟨h1, h2, fun hd => by simp [h2, file_stem_of_no_dot N hd]⟩

/-- Witness for C8 at a concrete input: importing `abc` (no dot) into an
empty store lists exactly one image named `abc`. -/
theorem C8_witness :
    (images ["images".data] (import_image ⟨[]⟩ "abc".data)).map
      ImageHandle.name = ["abc".data] := by
  exact (C8_import_then_list ["images".data] "abc".data (by decide)
    (by decide)).2.2 (by decide)

/-! ## Exporting a container (src/jocker/container.rs 436-465)

`export_as_image` runs in the host mount namespace (no clone): extract the
image, mount the overlay at `<container>/rootfs`, create `/tmp/image.tar.gz`
and stream the tar archive into it, unmount `rootfs`, import the archive
under the supplied name, and remove the temporary archive.  The host state
tracks the mounts of the host namespace, the files present, and the image
store; the environment says which fallible steps succeed.  Each early return
(`?`) leaves the state as accumulated so far, which is what C10 is about. -/

/-- The fixed temporary archive path `/tmp/image.tar.gz`. -/
def tempArchivePath : List Rstr := ["tmp".data, "image.tar.gz".data]

/-- The host-visible state touched by `export_as_image`. -/
structure HostState where
  mounted : List (List Rstr)
  files : List (List Rstr)
  imageStore : ImageStoreState
deriving DecidableEq

/-- Which of the fallible steps of `export_as_image` succeed. -/
structure ExportEnv where
  extractOk : Bool
  overlayOk : Bool
  createTempOk : Bool
  archiveOk : Bool
  umountOk : Bool
  importOk : Bool
  removeTempOk : Bool
deriving DecidableEq

/-- `Container::export_as_image`: the source sequence of effects and early
returns.  `extract_image` failure maps to `InitializationError`; the overlay
mount failure to `ContainerSetupError`; `File::create` of the temporary
archive and failures while building the archive to `ArchiveError` (the file
having been created before the tar build starts); `umount` failure to
`ContainerSetupError`; `import_image` failure to `ExportError`; and a failure
removing the temporary archive to `ArchiveError`. -/
def export_as_image (env : ExportEnv) (st : HostState)
    (containerPath : List Rstr) (name : Rstr) :
    Except ContainerError Unit × HostState :=
  if !env.extractOk then (.error (.InitializationError .InvalidImage), st)
  else
    let rootfs := containerPath ++ ["rootfs".data]
    if !env.overlayOk then (.error .ContainerSetupError, st)
    else
      let st1 : HostState := { st with mounted := rootfs :: st.mounted }
      if !env.createTempOk then (.error .ArchiveError, st1)
      else
        let st2 : HostState := { st1 with files := tempArchivePath :: st1.files }
        if !env.archiveOk then (.error .ArchiveError, st2)
        else if !env.umountOk then (.error .ContainerSetupError, st2)
        else
          let st3 : HostState := { st2 with mounted := st2.mounted.erase rootfs }
          if !env.importOk then (.error (.ExportError .CannotImportTarball), st3)
          else
            let st4 : HostState :=
              { st3 with imageStore := import_image st3.imageStore name }
            if !env.removeTempOk then (.error .ArchiveError, st4)
            else (.ok (), { st4 with files := st4.files.erase tempArchivePath })

/-- C10: when building the tar archive fails (extraction, overlay mount and
temp-file creation having succeeded), `export_as_image` returns
`ArchiveError`, the overlay it mounted at `<container>/rootfs` is still
mounted in the host namespace, the partial `/tmp/image.tar.gz` is still
present, and the image store is unchanged — no import under the supplied
name happened. -/
theorem C10_export_archive_failure :
    ∀ (env : ExportEnv) (st : HostState) (containerPath : List Rstr)
      (name : Rstr),
    env.extractOk = true → env.overlayOk = true → env.createTempOk = true →
    env.archiveOk = false →
    (export_as_image env st containerPath name).1 = .error .ArchiveError
    ∧ containerPath ++ ["rootfs".data] ∈
        (export_as_image env st containerPath name).2.mounted
    ∧ tempArchivePath ∈ (export_as_image env st containerPath name).2.files
    ∧ (export_as_image env st containerPath name).2.imageStore =
        st.imageStore := by
  intro env st containerPath name h1 h2 h3 h4
  refine ⟨?_, ?_, ?_, ?_⟩ <;> simp [export_as_image, h1, h2, h3, h4]

/-- Witness for C10 at a concrete input: every step up to the archive build
succeeds, the build fails, and the failing export leaves the overlay mounted,
the partial archive on disk, and the store empty. -/
theorem C10_witness :
    (export_as_image ⟨true, true, true, false, true, true, true⟩
        ⟨[], [], ⟨[]⟩⟩ ["containers".data, "c1".data] "img".data).1 =
      .error .ArchiveError
    ∧ ["containers".data, "c1".data] ++ ["rootfs".data] ∈
        (export_as_image ⟨true, true, true, false, true, true, true⟩
          ⟨[], [], ⟨[]⟩⟩ ["containers".data, "c1".data] "img".data).2.mounted
    ∧ tempArchivePath ∈
        (export_as_image ⟨true, true, true, false, true, true, true⟩
          ⟨[], [], ⟨[]⟩⟩ ["containers".data, "c1".data] "img".data).2.files
    ∧ (export_as_image ⟨true, true, true, false, true, true, true⟩
        ⟨[], [], ⟨[]⟩⟩ ["containers".data, "c1".data] "img".data).2.imageStore =
      (⟨[], [], ⟨[]⟩⟩ : HostState).imageStore := by
  exact C10_export_archive_failure ⟨true, true, true, false, true, true, true⟩
    ⟨[], [], ⟨[]⟩⟩ ["containers".data, "c1".data] "img".data rfl rfl rfl rfl
